import Mathlib

/-!
Verification of the multi-venue trading adapter layer (spec.md) against its
C++ source.  Each component the claims touch is shallowly embedded:

* prices: the source stores venue-B prices as `double price = paise / 100.0`.
  Every such double is an integer number of paise divided by 100, which is
  exactly representable, and `p ↦ p / 100.0` is strictly monotone and injective
  on the paise range, so map keys, comparisons and equalities behave exactly
  like the underlying paise integers.  The embedding therefore carries these
  prices as integer paise (scale 100), matching the spec's fixed-point `Price`.
* `std::map` / assoc containers are embedded as association lists with
  explicit find/set/erase; where the source iterates a sorted container
  (`std::set<double>`, `std::map` `begin()`), the embedding sorts or takes
  the explicit max/min so iteration order is preserved.
* machine integers stay in `Nat`/`Int`; the one place the source composes a
  64-bit id with shifts and ors, the embedding reduces modulo `2 ^ 64`.
* record types declared in headers that are not part of this source subset
  (`common/types.h`, `exchange/market_data/market_update.h`,
  `exchange/order_server/client_request.h`) are modelled from the spec's
  §3 data model; this is noted on each such definition.
-/

/-- Modelled from the spec: `Side` — enum `{BUY, SELL, INVALID}` (§3,
`common/types.h` is not part of the source subset). -/
inductive Side where
  | BUY
  | SELL
  | INVALID
deriving DecidableEq, Repr

/-- Association-list embedding of `std::map`/`std::unordered_map` lookup
(`m.find(k)`). -/
def assocFind? {α β : Type} [DecidableEq α] (m : List (α × β)) (k : α) : Option β :=
  match m with
  | [] => none
  | (k', v) :: rest => if k' = k then some v else assocFind? rest k

/-- Association-list embedding of `m[k] = v` (overwrite if present, insert
otherwise).  The claims never depend on the position of a fresh key, so the
insertion point is immaterial; where the source iterates a map in key order
the embedding sorts or takes max/min explicitly. -/
def assocSet {α β : Type} [DecidableEq α] (m : List (α × β)) (k : α) (v : β) : List (α × β) :=
  match m with
  | [] => [(k, v)]
  | (k', v') :: rest => if k' = k then (k, v) :: rest else (k', v') :: assocSet rest k v

/-- Association-list embedding of `m.erase(k)`. -/
def assocErase {α β : Type} [DecidableEq α] (m : List (α × β)) (k : α) : List (α × β) :=
  match m with
  | [] => []
  | (k', v') :: rest => if k' = k then rest else (k', v') :: assocErase rest k

/-- Insert into an ascending list (helper for the sorted-set embedding). -/
def insortInt (p : Int) : List Int → List Int
  | [] => [p]
  | q :: qs => if p ≤ q then p :: q :: qs else q :: insortInt p qs

/-- Ascending sort; embeds the iteration order of `std::set<double>` (the
doubles are paise/100, so double order = paise order). -/
def sortInt (l : List Int) : List Int := l.foldr insortInt []

namespace Zerodha

/-- `MarketUpdateType` from `zerodha_websocket_client.h`. -/
inductive MarketUpdateType where
  | LTP
  | QUOTE
  | FULL
  | INDEX
deriving DecidableEq, Repr

/-- `MarketDepthEntry` from `zerodha_websocket_client.h` (price in paise). -/
structure MarketDepthEntry where
  quantity : Int
  price : Int
  orders : Int
deriving DecidableEq, Repr

/-- `MarketUpdate` from `zerodha_websocket_client.h`, restricted to the fields
`ZerodhaOrderBook` reads.  `last_price` and `last_quantity` are the decoded
doubles, carried in exact paise / integer units. -/
structure MarketUpdate where
  type : MarketUpdateType
  last_price : Int
  last_quantity : Int
  bids : List MarketDepthEntry
  asks : List MarketDepthEntry
deriving DecidableEq, Repr

/-- `ZerodhaOrderBook::PriceLevel` (price carried in exact paise). -/
structure PriceLevel where
  price : Int
  quantity : Int
  orders : Int
  last_update_time : Nat
deriving DecidableEq, Repr

/-- Modelled from the spec: normalized market-event kinds
`{CLEAR, ADD, MODIFY, CANCEL, TRADE}` (§3;
`exchange/market_data/market_update.h` is not part of the source subset). -/
inductive EventType where
  | CLEAR
  | ADD
  | MODIFY
  | CANCEL
  | TRADE
deriving DecidableEq, Repr

/-- Modelled from the spec: the normalized market event record (§3), with the
fields `ZerodhaOrderBook` assigns.  `price` is in exact paise units (see the
file header). -/
structure MEMarketUpdate where
  type : EventType
  ticker_id : Nat
  order_id : Nat
  side : Side
  price : Int
  qty : Int
deriving DecidableEq, Repr

/-- Modelled from the spec: `OrderId` is a `u64` with an `INVALID` sentinel
(§3); the sentinel value is the all-ones word. -/
def OrderId_INVALID : Nat := 2 ^ 64 - 1

/-- `ZerodhaOrderBook::generateOrderId`: `(ticker_id << 48) | (price_bits << 1)
| side_bit` as a `uint64_t`, where `price_bits = (uint64_t)(price * 100.0)` is
exactly the paise value. -/
def generateOrderId (ticker_id : Nat) (price : Int) (side : Side) : Nat :=
  let price_bits := price.toNat
  let side_bit := if side = Side.BUY then 0 else 1
  (((ticker_id <<< 48).lor (price_bits <<< 1)).lor side_bit) % 2 ^ 64

/-- `ZerodhaOrderBook::BBO`; `none` stands for the source's empty-side
sentinels (`0.0` bid / `DBL_MAX` ask with zero quantity). -/
structure BBO where
  bid : Option (Int × Int)
  ask : Option (Int × Int)
deriving DecidableEq, Repr

/-- The persistent state of a `ZerodhaOrderBook`.  The scratch sets
`prev_bid_prices_` / `prev_ask_prices_` are rebuilt from the maps at the top
of every `processMarketUpdate` call before any read, so they are modelled as
locals of that function rather than state. -/
structure Book where
  bids : List (Int × PriceLevel)
  asks : List (Int × PriceLevel)
  bbo : BBO
  last_update_time : Nat
deriving DecidableEq, Repr

/-- `std::set` erase-by-value (the sets hold distinct prices). -/
def eraseAll (l : List Int) (p : Int) : List Int := l.filter (fun q => q != p)

def keys (m : List (Int × PriceLevel)) : List Int := m.map Prod.fst

/-- One side of the per-level loop in `ZerodhaOrderBook::generateMarketEvents`
(lines 64–174): for each non-empty level, emit `ADD` for a new price, `MODIFY`
for a changed quantity, update the map, and erase the price from the prior-set.
Returns (side map, remaining prior-set, events in emission order). -/
def processSide (ticker_id : Nat) (side : Side) (now : Nat) :
    List MarketDepthEntry → List (Int × PriceLevel) → List Int →
    List (Int × PriceLevel) × List Int × List MEMarketUpdate
  | [], m, prev => (m, prev, [])
  | e :: es, m, prev =>
    if e.price ≤ 0 ∨ e.quantity ≤ 0 then
      processSide ticker_id side now es m prev
    else
      match assocFind? m e.price with
      | none =>
        let ev : MEMarketUpdate :=
          ⟨EventType.ADD, ticker_id, generateOrderId ticker_id e.price side, side,
            e.price, e.quantity⟩
        let m1 := assocSet m e.price ⟨e.price, e.quantity, e.orders, now⟩
        let r := processSide ticker_id side now es m1 (eraseAll prev e.price)
        (r.1, r.2.1, ev :: r.2.2)
      | some lv =>
        if lv.quantity ≠ e.quantity then
          let ev : MEMarketUpdate :=
            ⟨EventType.MODIFY, ticker_id, generateOrderId ticker_id e.price side, side,
              e.price, e.quantity⟩
          let m1 := assocSet m e.price
            { lv with quantity := e.quantity, orders := e.orders, last_update_time := now }
          let r := processSide ticker_id side now es m1 (eraseAll prev e.price)
          (r.1, r.2.1, ev :: r.2.2)
        else
          processSide ticker_id side now es m (eraseAll prev e.price)

/-- `ZerodhaOrderBook::checkForDisappearedLevels` for one side: walk the
leftover prior-set in ascending (`std::set`) order, emitting a `CANCEL` and
erasing the level for every price still present in the map. -/
def checkForDisappearedLevels (ticker_id : Nat) (side : Side) :
    List Int → List (Int × PriceLevel) →
    List (Int × PriceLevel) × List MEMarketUpdate
  | [], m => (m, [])
  | p :: ps, m =>
    match assocFind? m p with
    | some _ =>
      let ev : MEMarketUpdate :=
        ⟨EventType.CANCEL, ticker_id, generateOrderId ticker_id p side, side, p, 0⟩
      let r := checkForDisappearedLevels ticker_id side ps (assocErase m p)
      (r.1, ev :: r.2)
    | none => checkForDisappearedLevels ticker_id side ps m

/-- `ZerodhaOrderBook::generateMarketEvents` (lines 54–196): early-return for
non-`FULL` updates; otherwise bid levels, ask levels, disappeared-level
cancels (bids then asks), then an optional `TRADE`.
Returns (bids, asks, events). -/
def generateMarketEvents (ticker_id now : Nat)
    (bids asks : List (Int × PriceLevel)) (prevB prevA : List Int)
    (u : MarketUpdate) :
    List (Int × PriceLevel) × List (Int × PriceLevel) × List MEMarketUpdate :=
  if u.type ≠ MarketUpdateType.FULL then (bids, asks, [])
  else
    let rb := processSide ticker_id Side.BUY now u.bids bids prevB
    let ra := processSide ticker_id Side.SELL now u.asks asks prevA
    let cb := checkForDisappearedLevels ticker_id Side.BUY rb.2.1 rb.1
    let ca := checkForDisappearedLevels ticker_id Side.SELL ra.2.1 ra.1
    let trade :=
      if u.last_quantity > 0 then
        [⟨EventType.TRADE, ticker_id, OrderId_INVALID, Side.INVALID,
          u.last_price, u.last_quantity⟩]
      else []
    (cb.1, ca.1, rb.2.2 ++ ra.2.2 ++ cb.2 ++ ca.2 ++ trade)

/-- Entry with the greatest key: `bids_.begin()` under the
`std::greater<double>` comparator. -/
def maxEntry : List (Int × PriceLevel) → Option (Int × PriceLevel)
  | [] => none
  | e :: es =>
    match maxEntry es with
    | none => some e
    | some m => some (if m.1 < e.1 then e else m)

/-- Entry with the least key: `asks_.begin()` under `std::less<double>`. -/
def minEntry : List (Int × PriceLevel) → Option (Int × PriceLevel)
  | [] => none
  | e :: es =>
    match minEntry es with
    | none => some e
    | some m => some (if e.1 < m.1 then e else m)

/-- `ZerodhaOrderBook::updateBBO`: best bid = greatest bid key, best ask =
least ask key; empty sides map to the sentinel (`none`). -/
def updateBBO (bids asks : List (Int × PriceLevel)) : BBO :=
  { bid := (maxEntry bids).map (fun e => (e.2.price, e.2.quantity)),
    ask := (minEntry asks).map (fun e => (e.2.price, e.2.quantity)) }

/-- `ZerodhaOrderBook::processMarketUpdate` (lines 26–52): snapshot the prior
price sets, generate events, refresh the BBO cache and the last-update
timestamp (`now` stands for `getCurrentNanos()`). -/
def processMarketUpdate (ticker_id now : Nat) (b : Book) (u : MarketUpdate) :
    Book × List MEMarketUpdate :=
  let prevB := sortInt (keys b.bids)
  let prevA := sortInt (keys b.asks)
  let r := generateMarketEvents ticker_id now b.bids b.asks prevB prevA u
  ({ bids := r.1, asks := r.2.1, bbo := updateBBO r.1 r.2.1, last_update_time := now },
    r.2.2)

end Zerodha

namespace Binance

/-- A depth-delta frame `{U, u, b[], a[]}` as parsed by
`BinanceMarketDataConsumer` (`binance_market_data_consumer.cpp`): prices and
quantities are already converted to the internal fixed-point
(`stod(s) * 100.0` casts), so they are carried as integers here. -/
structure DepthUpdate where
  U : Nat
  u : Nat
  b : List (Int × Nat)
  a : List (Int × Nat)
deriving DecidableEq, Repr

/-- A REST `/depth` snapshot `{lastUpdateId, bids, asks}` in the same units. -/
structure Snapshot where
  lastUpdateId : Nat
  bids : List (Int × Nat)
  asks : List (Int × Nat)
deriving DecidableEq, Repr

/-- `Trading::OrderBook` (binance_market_data_consumer.cpp lines 96–222):
bid/ask level maps, `last_update_id_`, `initialized_`. -/
structure OrderBook where
  bids : List (Int × Nat)
  asks : List (Int × Nat)
  last_update_id : Nat
  initialized : Bool
deriving DecidableEq, Repr

/-- `OrderBook::reset`. -/
def OrderBook.reset : OrderBook :=
  { bids := [], asks := [], last_update_id := 0, initialized := false }

/-- One side of `OrderBook::applyUpdate`'s level loop: `qty > 0` sets the
level, `qty == 0` erases it. -/
def applyLevels (m : List (Int × Nat)) (ls : List (Int × Nat)) : List (Int × Nat) :=
  ls.foldl (fun acc pq => if pq.2 > 0 then assocSet acc pq.1 pq.2 else assocErase acc pq.1) m

/-- `OrderBook::applyUpdate` (lines 144–193): reject when uninitialized, when
`u < last_update_id_`, or on a gap (which drops `initialized_`); otherwise
apply both sides and advance `last_update_id_`.  Returns the new book and the
function's `bool` result. -/
def OrderBook.applyUpdate (ob : OrderBook) (d : DepthUpdate) : OrderBook × Bool :=
  if ob.initialized = false then (ob, false)
  else if d.u < ob.last_update_id then (ob, false)
  else if ob.last_update_id + 1 < d.U then ({ ob with initialized := false }, false)
  else
    ({ bids := applyLevels ob.bids d.b, asks := applyLevels ob.asks d.a,
       last_update_id := d.u, initialized := true }, true)

/-- Modelled from the spec: the normalized market event as emitted by the
venue-A consumer (§3); `order_id` is the consumer's running sequence number. -/
structure MEMarketUpdate where
  type : Zerodha.EventType
  ticker_id : Nat
  order_id : Nat
  side : Side
  price : Int
  qty : Nat
deriving DecidableEq, Repr

/-- Consumer state for one symbol: the local book plus `next_sequence_num_`. -/
structure ConsumerState where
  book : OrderBook
  seq : Nat
deriving DecidableEq, Repr

/-- The per-entry event loop of `applyDepthUpdate` (lines 1032–1098): every
entry emits an event — `ADD` when `qty > 0`, else `CANCEL` — with a fresh
sequence number as its order id. -/
def depthSideEvents (ticker_id : Nat) (side : Side) :
    Nat → List (Int × Nat) → List MEMarketUpdate × Nat
  | seq, [] => ([], seq)
  | seq, (p, q) :: rest =>
    let ev : MEMarketUpdate :=
      if q > 0 then ⟨Zerodha.EventType.ADD, ticker_id, seq, side, p, q⟩
      else ⟨Zerodha.EventType.CANCEL, ticker_id, seq, side, p, 0⟩
    let r := depthSideEvents ticker_id side (seq + 1) rest
    (ev :: r.1, r.2)

/-- Snapshot installation loop of `initializeOrderBook` (lines 756–810): only
levels with `qty > 0` are added to the book and emitted as `ADD`s. -/
def snapshotAdds (ticker_id : Nat) (side : Side) :
    Nat → List (Int × Nat) → List MEMarketUpdate × Nat
  | seq, [] => ([], seq)
  | seq, (p, q) :: rest =>
    if q > 0 then
      let ev : MEMarketUpdate := ⟨Zerodha.EventType.ADD, ticker_id, seq, side, p, q⟩
      let r := snapshotAdds ticker_id side (seq + 1) rest
      (ev :: r.1, r.2)
    else snapshotAdds ticker_id side seq rest

/-- The book contents installed by the `addBidLevel`/`addAskLevel` calls of
`initializeOrderBook`. -/
def installLevels (ls : List (Int × Nat)) : List (Int × Nat) :=
  ls.foldl (fun acc pq => if pq.2 > 0 then assocSet acc pq.1 pq.2 else acc) []

/-- `BinanceMarketDataConsumer::initializeOrderBook` (lines 727–825): reset
the book, emit a `CLEAR`, then emit `ADD`s for every positive snapshot level
(bids, then asks) while installing them, and finally set the snapshot's
`lastUpdateId` (which marks the book initialized). -/
def initializeOrderBook (ticker_id : Nat) (st : ConsumerState) (s : Snapshot) :
    ConsumerState × List MEMarketUpdate :=
  let clearEv : MEMarketUpdate :=
    ⟨Zerodha.EventType.CLEAR, ticker_id, 0, Side.INVALID, 0, 0⟩
  let rb := snapshotAdds ticker_id Side.BUY st.seq s.bids
  let ra := snapshotAdds ticker_id Side.SELL rb.2 s.asks
  ({ book := { bids := installLevels s.bids, asks := installLevels s.asks,
               last_update_id := s.lastUpdateId, initialized := true },
     seq := ra.2 },
   clearEv :: (rb.1 ++ ra.1))

/-- `BinanceMarketDataConsumer::applyDepthUpdate` (lines 977–1122) for one
symbol, composed with the buffering guard of `onDepthUpdate` (an update
arriving while the book is uninitialized is buffered and emits nothing; the
buffer is never drained on the live path, see `processBufferedUpdates`'s sole
call site in `start`).

* `u ≤ last_update_id`: ignore — no event, no state change.
* `U > last_update_id + 1`: gap — reset the book, buffer the current update
  and re-enter `getOrderBookSnapshot`, whose fetch loop accepts the first
  snapshot with `lastUpdateId ≥` the buffered update's `U` and passes it to
  `initializeOrderBook`.  `snaps` is the sequence of snapshots the venue
  returns to that loop; if none qualifies the source loops without returning
  or emitting, which the model renders as the reset (uninitialized) state with
  no events.
* otherwise: emit per-entry events for `b` then `a`, then update the local
  book via `OrderBook.applyUpdate` (whose failure branch is unreachable here —
  see `applyUpdate_ok_of_guards`). -/
def applyDepthUpdate (ticker_id : Nat) (st : ConsumerState) (d : DepthUpdate)
    (snaps : List Snapshot) : ConsumerState × List MEMarketUpdate :=
  if st.book.initialized = false then (st, [])
  else if d.u ≤ st.book.last_update_id then (st, [])
  else if st.book.last_update_id + 1 < d.U then
    match snaps.find? (fun s => decide (d.U ≤ s.lastUpdateId)) with
    | none => ({ book := OrderBook.reset, seq := st.seq }, [])
    | some s => initializeOrderBook ticker_id { st with book := OrderBook.reset } s
  else
    let rb := depthSideEvents ticker_id Side.BUY st.seq d.b
    let ra := depthSideEvents ticker_id Side.SELL rb.2 d.a
    ({ book := (st.book.applyUpdate d).1, seq := ra.2 }, rb.1 ++ ra.1)

/-- One live depth frame together with the snapshots the venue would serve if
this frame triggers a resynchronization. -/
structure DepthInput where
  upd : DepthUpdate
  snaps : List Snapshot
deriving DecidableEq, Repr

/-- A trace of live depth frames processed in arrival order; the emitted
events are concatenated in emission order (the engine-queue order). -/
def consumeTrace (ticker_id : Nat) (st : ConsumerState) :
    List DepthInput → ConsumerState × List MEMarketUpdate
  | [] => (st, [])
  | i :: ins =>
    let r1 := applyDepthUpdate ticker_id st i.upd i.snaps
    let r2 := consumeTrace ticker_id r1.1 ins
    (r2.1, r1.2 ++ r2.2)

/-- The engine-queue event stream from a given frame onward: the events of
that frame followed by the events of the remaining trace. -/
def eventsFrom (ticker_id : Nat) (st : ConsumerState) (d : DepthUpdate)
    (snaps : List Snapshot) (rest : List DepthInput) : List MEMarketUpdate :=
  (applyDepthUpdate ticker_id st d snaps).2 ++
    (consumeTrace ticker_id (applyDepthUpdate ticker_id st d snaps).1 rest).2

end Binance

/-- `Exchange::ClientResponseType` from
`exchange/order_server/client_response.h`. -/
inductive ClientResponseType where
  | INVALID
  | ACCEPTED
  | REJECTED
  | CANCELED
  | FILLED
  | CANCEL_REJECTED
  | PARTIALLY_FILLED
deriving DecidableEq, Repr

/-- Modelled from the spec: `Qty` is a `u32` with an `INVALID` sentinel (§3;
`common/types.h` is not part of the source subset). -/
def Qty_INVALID : Nat := 2 ^ 32 - 1

/-- Modelled from the spec: `Price` is an `i64` with an `INVALID` sentinel
(§3). -/
def Price_INVALID : Int := 2 ^ 63 - 1

/-- `Exchange::MEClientResponse` from
`exchange/order_server/client_response.h` (the `reject_reason_` field is
omitted: no claim inspects it). -/
structure MEClientResponse where
  type : ClientResponseType
  client_id : Nat
  ticker_id : Nat
  order_id : Nat
  side : Side
  price : Int
  exec_qty : Nat
  leaves_qty : Nat
deriving DecidableEq, Repr

/-- Modelled from the spec: normalized client-request kinds `{NEW, CANCEL}`
(§3; `exchange/order_server/client_request.h` is not part of the source
subset). -/
inductive ClientRequestType where
  | NEW
  | CANCEL
deriving DecidableEq, Repr

/-- Modelled from the spec: the normalized client request record (§3). -/
structure MEClientRequest where
  type : ClientRequestType
  client_id : Nat
  order_id : Nat
  ticker_id : Nat
  side : Side
  price : Int
  qty : Nat
deriving DecidableEq, Repr

namespace ZerodhaGW

/-- The `ZerodhaOrderGatewayAdapter` configuration knobs
(`zerodha_order_gateway_adapter.h` lines 111–115), with the source's
`double` parameters carried as rationals / integral milliseconds. -/
structure Config where
  client_id : Nat
  paper_trading_mode : Bool
  paper_trading_fill_probability : ℚ
  paper_trading_min_latency_ms : ℚ
  paper_trading_max_latency_ms : ℚ
deriving Repr

/-- The simulated-fill delay of `ZerodhaOrderGatewayAdapter::sendNewOrder`
(line 215): `50 + rand() % 150` milliseconds, where `r` is the `rand()`
draw.  Note it does not read the configured latency range. -/
def paperFillDelayMs (r : Nat) : Nat := 50 + r % 150

/-- `ZerodhaOrderGatewayAdapter::sendNewOrder` (lines 184–239): always emit
`ACCEPTED` with `exec_qty = 0`, `leaves_qty = qty`; in paper-trading mode a
detached task later emits a full `FILLED` at the requested price.  Returns
(immediately emitted responses, delayed responses).  Note the fill is
unconditional: `paper_trading_fill_probability_` and the latency range are
never consulted. -/
def sendNewOrder (cfg : Config) (req : MEClientRequest) :
    List MEClientResponse × List MEClientResponse :=
  let response : MEClientResponse :=
    { type := ClientResponseType.ACCEPTED, client_id := req.client_id,
      ticker_id := req.ticker_id, order_id := req.order_id, side := req.side,
      price := req.price, exec_qty := 0, leaves_qty := req.qty }
  let delayed :=
    if cfg.paper_trading_mode then
      [{ type := ClientResponseType.FILLED, client_id := req.client_id,
         ticker_id := req.ticker_id, order_id := req.order_id, side := req.side,
         price := req.price, exec_qty := req.qty, leaves_qty := 0 }]
    else []
  ([response], delayed)

/-- `ZerodhaOrderGatewayAdapter::sendCancelOrder` (lines 242–267): always emit
`CANCELED` with `exec_qty = 0`, `leaves_qty = 0`; no order registry is
consulted. -/
def sendCancelOrder (req : MEClientRequest) :
    List MEClientResponse × List MEClientResponse :=
  ([{ type := ClientResponseType.CANCELED, client_id := req.client_id,
      ticker_id := req.ticker_id, order_id := req.order_id, side := req.side,
      price := req.price, exec_qty := 0, leaves_qty := 0 }], [])

/-- `ZerodhaOrderGatewayAdapter::processOrderRequest` (lines 147–181): drop
requests whose `client_id` does not match the adapter's, then dispatch on the
request type.  Returns (immediate responses, delayed paper-mode responses). -/
def processOrderRequest (cfg : Config) (req : MEClientRequest) :
    List MEClientResponse × List MEClientResponse :=
  if req.client_id ≠ cfg.client_id then ([], [])
  else
    match req.type with
    | ClientRequestType.NEW => sendNewOrder cfg req
    | ClientRequestType.CANCEL => sendCancelOrder req

end ZerodhaGW

namespace BinanceGW

/-- The venue order-status strings interpreted by
`OrderGateway::handleOrderQueryResponse`. -/
inductive VenueStatus where
  | NEW
  | PARTIALLY_FILLED
  | FILLED
  | CANCELED
  | REJECTED
  | PENDING_CANCEL
deriving DecidableEq, Repr

/-- A parsed venue JSON reply, restricted to the members the gateway reads.
`Option` is `isMember`; ids and symbols are carried as numeric codes;
`executedQty`/`price` are the `stod(s) * 100` casts, pre-scaled. -/
structure JsonReply where
  isNull : Bool
  orderId : Option Nat
  code : Option Int
  msg : Option String
  status : Option VenueStatus
  side : Option Side
  symbol : Option Nat
  executedQty : Option Nat
  price : Option Int
deriving DecidableEq, Repr

/-- `Json::Value()` — the null value. -/
def emptyReply : JsonReply :=
  ⟨true, none, none, none, none, none, none, none, none⟩

/-- `Trading::OrderGateway` maps (`binance_order_gateway.h`): ticker/symbol
tables and the internal-to-venue order-id map (`order_id_to_binance_id_`),
kept in key order as in `std::map`. -/
structure GwState where
  ticker_id_to_symbol : List (Nat × Nat)
  symbol_to_ticker_id : List (Nat × Nat)
  order_id_to_binance_id : List (Nat × Nat)
deriving DecidableEq, Repr

/-- Reverse lookup over `order_id_to_binance_id_` — the
`for ([oid, boid] : map) if (boid == binance_order_id)` scan of
`createClientResponse` (first match in key order). -/
def revFind? (m : List (Nat × Nat)) (v : Nat) : Option Nat :=
  match m with
  | [] => none
  | (k, v') :: rest => if v' = v then some k else revFind? rest v

/-- The trailing `FILLED` block of `createClientResponse` (lines 926–935):
for fills with `executedQty` and `price` present, overwrite the executed
quantity and price. -/
def applyFillFields (base : MEClientResponse) (reply : JsonReply)
    (type : ClientResponseType) : MEClientResponse :=
  if type = ClientResponseType.FILLED then
    match reply.executedQty, reply.price with
    | some eq, some p => { base with exec_qty := eq, price := p }
    | _, _ => base
  else base

/-- `OrderGateway::createClientResponse` (lines 869–951).  With a request the
identity fields are copied from it (`exec_qty = 0`, `leaves_qty` left at its
`Qty_INVALID` default).  Without one (status polling) the reply must carry
`orderId` and `side`, and both the reverse order-id lookup and the
symbol→ticker lookup must succeed, else nothing is emitted. -/
def createClientResponse (st : GwState) (client_id : Nat) (reply : JsonReply)
    (request : Option MEClientRequest) (type : ClientResponseType) :
    Option MEClientResponse :=
  match request with
  | some req =>
    let base : MEClientResponse :=
      { type := type, client_id := req.client_id, ticker_id := req.ticker_id,
        order_id := req.order_id, side := req.side, price := req.price,
        exec_qty := 0, leaves_qty := Qty_INVALID }
    some (applyFillFields base reply type)
  | none =>
    match reply.orderId, reply.side with
    | some boid, some sd =>
      let tk? := match reply.symbol with
        | some sym => assocFind? st.symbol_to_ticker_id sym
        | none => none
      match revFind? st.order_id_to_binance_id boid, tk? with
      | some oid, some tk =>
        let base : MEClientResponse :=
          { type := type, client_id := client_id, ticker_id := tk,
            order_id := oid, side := sd, price := Price_INVALID,
            exec_qty := Qty_INVALID, leaves_qty := Qty_INVALID }
        some (applyFillFields base reply type)
      | _, _ => none
    | _, _ => none

/-- `OrderGateway::processClientRequest` (lines 721–867) for one request,
where `reply` is the venue's answer to the REST call the branch performs
(`sendNewOrder` / `cancelOrder`), including those functions' order-map side
effects.  Returns the new state and the emitted responses. -/
def processClientRequest (st : GwState) (client_id : Nat)
    (req : MEClientRequest) (reply : JsonReply) :
    GwState × List MEClientResponse :=
  match req.type with
  | ClientRequestType.NEW =>
    if (assocFind? st.ticker_id_to_symbol req.ticker_id).isNone then
      (st, (createClientResponse st client_id emptyReply (some req)
              ClientResponseType.CANCEL_REJECTED).toList)
    else if req.qty = 0 then
      -- binance_qty = qty / 100.0 ≤ 0 exactly when the unsigned qty is 0
      (st, (createClientResponse st client_id emptyReply (some req)
              ClientResponseType.CANCEL_REJECTED).toList)
    else
      -- sendNewOrder stores the order-id mapping when the reply has "orderId"
      let st1 :=
        match reply.isNull, reply.orderId with
        | false, some boid =>
          { st with order_id_to_binance_id := assocSet st.order_id_to_binance_id req.order_id boid }
        | _, _ => st
      let emitted :=
        if reply.isNull then
          createClientResponse st1 client_id reply (some req)
            ClientResponseType.CANCEL_REJECTED
        else if reply.orderId.isSome then
          createClientResponse st1 client_id reply (some req)
            ClientResponseType.ACCEPTED
        else if reply.code.isSome ∧ reply.msg.isSome then
          createClientResponse st1 client_id reply (some req)
            ClientResponseType.CANCEL_REJECTED
        else
          createClientResponse st1 client_id reply (some req)
            ClientResponseType.CANCEL_REJECTED
      (st1, emitted.toList)
  | ClientRequestType.CANCEL =>
    match assocFind? st.order_id_to_binance_id req.order_id with
    | none =>
      (st, (createClientResponse st client_id emptyReply (some req)
              ClientResponseType.CANCEL_REJECTED).toList)
    | some _ =>
      -- cancelOrder itself returns null for an unknown ticker
      let reply1 :=
        if (assocFind? st.ticker_id_to_symbol req.ticker_id).isNone then emptyReply
        else reply
      -- cancelOrder erases the mapping when the reply has "orderId"
      let st1 :=
        match reply1.isNull, reply1.orderId with
        | false, some _ =>
          { st with order_id_to_binance_id := assocErase st.order_id_to_binance_id req.order_id }
        | _, _ => st
      let emitted :=
        if reply1.isNull then
          createClientResponse st1 client_id reply1 (some req)
            ClientResponseType.CANCEL_REJECTED
        else if reply1.orderId.isSome then
          createClientResponse st1 client_id reply1 (some req)
            ClientResponseType.CANCELED
        else if reply1.code.isSome ∧ reply1.msg.isSome then
          createClientResponse st1 client_id reply1 (some req)
            ClientResponseType.CANCEL_REJECTED
        else
          createClientResponse st1 client_id reply1 (some req)
            ClientResponseType.CANCEL_REJECTED
      (st1, emitted.toList)

/-- `OrderGateway::handleOrderQueryResponse` (lines 580–621): map the polled
venue status to a response kind, erase the order-id mapping for terminal
statuses, and emit through `createClientResponse` (request = null). -/
def handleOrderQueryResponse (st : GwState) (client_id : Nat)
    (reply : JsonReply) (order_id : Nat) : GwState × Option MEClientResponse :=
  match reply.status with
  | none => (st, none)
  | some VenueStatus.FILLED =>
    let st1 := { st with order_id_to_binance_id := assocErase st.order_id_to_binance_id order_id }
    (st1, createClientResponse st1 client_id reply none ClientResponseType.FILLED)
  | some VenueStatus.PARTIALLY_FILLED =>
    -- the source maps a venue PARTIALLY_FILLED to ClientResponseType::FILLED
    -- ("For partial fills, we can use FILLED with partial quantity")
    (st, createClientResponse st client_id reply none ClientResponseType.FILLED)
  | some VenueStatus.CANCELED =>
    let st1 := { st with order_id_to_binance_id := assocErase st.order_id_to_binance_id order_id }
    (st1, createClientResponse st1 client_id reply none ClientResponseType.CANCELED)
  | some VenueStatus.REJECTED =>
    let st1 := { st with order_id_to_binance_id := assocErase st.order_id_to_binance_id order_id }
    (st1, createClientResponse st1 client_id reply none ClientResponseType.CANCEL_REJECTED)
  | some _ => (st, none)

end BinanceGW

namespace Taker

/-- `ZerodhaLiquidityTaker::BracketOrder`
(`zerodha_liquidity_taker.h`); the three timestamps are observability-only
and no claim reads them, so they are omitted. -/
structure BracketOrder where
  entry_order_id : Nat
  stop_loss_order_id : Nat
  target_order_id : Nat
  ticker_id : Nat
  side : Side
  entry_price : Int
  stop_loss_price : Int
  target_price : Int
  quantity : Nat
  entry_filled : Bool
  stop_loss_triggered : Bool
  target_triggered : Bool
deriving DecidableEq, Repr

/-- The strategy state the bracket machinery touches:
`active_bracket_orders_` (a `std::map` keyed by entry order id, kept in key
order), the `next_order_id_` counter, and the outgoing request queue
(`outgoing_requests_`, oldest first; the model's queue is unbounded, i.e. the
source's queue-full drop branches are not taken). -/
structure State where
  active_bracket_orders : List (Nat × BracketOrder)
  next_order_id : Nat
  outgoing_requests : List MEClientRequest
deriving DecidableEq, Repr

/-- The exit-leg scan of `handleBracketOrderFill` (lines 869–967): find the
first bracket whose stop-loss or target id matches the response's order id,
mark it triggered, and enqueue a `CANCEL` for the other leg (identity fields
only; the request's remaining fields keep their defaults). -/
def scanExitLegs (client_id rid : Nat) :
    List (Nat × BracketOrder) → List (Nat × BracketOrder) × List MEClientRequest
  | [] => ([], [])
  | (k, b) :: rest =>
    if rid = b.stop_loss_order_id then
      let b1 := { b with stop_loss_triggered := true }
      let reqs :=
        if b.target_order_id ≠ 0 then
          [⟨ClientRequestType.CANCEL, client_id, b.target_order_id, b.ticker_id,
            Side.INVALID, 0, 0⟩]
        else []
      ((k, b1) :: rest, reqs)
    else if rid = b.target_order_id then
      let b1 := { b with target_triggered := true }
      let reqs :=
        if b.stop_loss_order_id ≠ 0 then
          [⟨ClientRequestType.CANCEL, client_id, b.stop_loss_order_id, b.ticker_id,
            Side.INVALID, 0, 0⟩]
        else []
      ((k, b1) :: rest, reqs)
    else
      let r := scanExitLegs client_id rid rest
      ((k, b) :: r.1, r.2)

/-- `ZerodhaLiquidityTaker::handleBracketOrderFill` (lines 741–969).  A
response whose order id keys a bracket is an entry fill: on the first one,
set `entry_filled`, allocate the stop-loss and target ids from
`next_order_id_`, and enqueue the two opposite-side exit `NEW`s at
`stop_loss_price` and `target_price` — both for the bracket's recorded
`quantity`.  Otherwise scan the exit legs. -/
def handleBracketOrderFill (client_id : Nat) (st : State)
    (resp : MEClientResponse) : State :=
  match assocFind? st.active_bracket_orders resp.order_id with
  | some b =>
    if b.entry_filled then st
    else
      let sl_id := st.next_order_id
      let tp_id := st.next_order_id + 1
      let exit_side := if b.side = Side.BUY then Side.SELL else Side.BUY
      let b1 :=
        { b with entry_filled := true, stop_loss_order_id := sl_id, target_order_id := tp_id }
      let sl_request : MEClientRequest :=
        ⟨ClientRequestType.NEW, client_id, sl_id, b.ticker_id, exit_side,
          b.stop_loss_price, b.quantity⟩
      let tp_request : MEClientRequest :=
        ⟨ClientRequestType.NEW, client_id, tp_id, b.ticker_id, exit_side,
          b.target_price, b.quantity⟩
      { active_bracket_orders := assocSet st.active_bracket_orders resp.order_id b1,
        next_order_id := st.next_order_id + 2,
        outgoing_requests := st.outgoing_requests ++ [sl_request, tp_request] }
  | none =>
    let r := scanExitLegs client_id resp.order_id st.active_bracket_orders
    { st with active_bracket_orders := r.1, outgoing_requests := st.outgoing_requests ++ r.2 }

/-- The bracket-relevant part of `ZerodhaLiquidityTaker::onOrderUpdate`
(lines 270–320): only `FILLED` and `PARTIALLY_FILLED` responses reach
`handleBracketOrderFill`. -/
def onOrderUpdate (client_id : Nat) (st : State) (resp : MEClientResponse) : State :=
  if resp.type = ClientResponseType.FILLED ∨
     resp.type = ClientResponseType.PARTIALLY_FILLED then
    handleBracketOrderFill client_id st resp
  else st

/-- `ZerodhaLiquidityTaker::adjustQuantityToLotSize` (lines 354–373): with a
cached lot size, round down to a multiple of it but never below one lot;
without one, return the quantity unchanged. -/
def adjustQuantityToLotSize (lot_sizes : List (Nat × Nat)) (ticker_id qty : Nat) : Nat :=
  match assocFind? lot_sizes ticker_id with
  | some lot_size => max lot_size (qty / lot_size * lot_size)
  | none => qty

end Taker

/-! ### Concrete scenario data used by the theorems below. -/

def s3EmptyLevel : Zerodha.MarketDepthEntry := ⟨0, 0, 0⟩

/-- Scenario S3, snapshot k: bids `[(100.00, 10), (99.50, 5)]` (paise). -/
def s3SnapshotK : Zerodha.MarketUpdate :=
  { type := Zerodha.MarketUpdateType.FULL, last_price := 0, last_quantity := 0,
    bids := [⟨10, 10000, 1⟩, ⟨5, 9950, 1⟩, s3EmptyLevel, s3EmptyLevel, s3EmptyLevel],
    asks := [s3EmptyLevel, s3EmptyLevel, s3EmptyLevel, s3EmptyLevel, s3EmptyLevel] }

/-- Scenario S3, snapshot k+1: bids `[(100.00, 7), (99.00, 3)]` (paise). -/
def s3SnapshotK1 : Zerodha.MarketUpdate :=
  { type := Zerodha.MarketUpdateType.FULL, last_price := 0, last_quantity := 0,
    bids := [⟨7, 10000, 1⟩, ⟨3, 9900, 1⟩, s3EmptyLevel, s3EmptyLevel, s3EmptyLevel],
    asks := [s3EmptyLevel, s3EmptyLevel, s3EmptyLevel, s3EmptyLevel, s3EmptyLevel] }

/-- The venue-B book after processing snapshot k from empty. -/
def s3PriorBook : Zerodha.Book :=
  (Zerodha.processMarketUpdate 1 0 ⟨[], [], ⟨none, none⟩, 0⟩ s3SnapshotK).1

/-- The events the venue-B book emits for snapshot k+1. -/
def s3Events : List Zerodha.MEMarketUpdate :=
  (Zerodha.processMarketUpdate 1 0 s3PriorBook s3SnapshotK1).2

/-- An initialized venue-A consumer at `last_update_id = 100` (C2 data). -/
def c2Book : Binance.ConsumerState :=
  ⟨⟨[(10000, 500)], [(10100, 700)], 100, true⟩, 5⟩

/-- A gapped delta: `U = 105 > 100 + 1` (scenario S2). -/
def c2Gap : Binance.DepthUpdate := ⟨105, 108, [(10000, 900)], []⟩

def c2Snaps : List Binance.Snapshot := [⟨110, [(10000, 800)], [(10100, 650)]⟩]

/-- An initialized venue-A consumer at `last_update_id = 100` (C3 data). -/
def c3Book : Binance.ConsumerState :=
  ⟨⟨[(10000, 500)], [(10100, 700)], 100, true⟩, 5⟩

def c3Inputs : List Binance.DepthInput :=
  [⟨⟨101, 103, [(10000, 600)], []⟩, []⟩,
   ⟨⟨104, 107, [], [(10100, 0)]⟩, []⟩]

/-- Scenario S4 bracket: entry id 500, BUY 10 @ 500.00, SL 495.00, TP 510.00. -/
def s4Bracket : Taker.BracketOrder :=
  ⟨500, 0, 0, 3, Side.BUY, 50000, 49500, 51000, 10, false, false, false⟩

def s4State : Taker.State := ⟨[(500, s4Bracket)], 1000000, []⟩

/-- A partial fill of the S4 entry: 4 of 10 executed. -/
def s4PartialResp : MEClientResponse :=
  ⟨ClientResponseType.PARTIALLY_FILLED, 7, 3, 500, Side.BUY, 50000, 4, 6⟩

def c5State : BinanceGW.GwState := ⟨[(3, 77)], [(77, 3)], []⟩

def c5Request : MEClientRequest := ⟨ClientRequestType.NEW, 7, 500, 3, Side.BUY, 50000, 1000⟩

/-- A venue error body: `{"code": -1013, "msg": "Filter failure: PRICE_FILTER"}`. -/
def c5ErrorReply : BinanceGW.JsonReply :=
  ⟨false, none, some (-1013), some "Filter failure: PRICE_FILTER", none, none, none, none, none⟩

def c6State : BinanceGW.GwState := ⟨[(3, 77)], [(77, 3)], [(500, 9001)]⟩

/-- A polled status body: venue order 9001 `PARTIALLY_FILLED`, 4.00 executed. -/
def c6Reply : BinanceGW.JsonReply :=
  ⟨false, some 9001, none, none, some BinanceGW.VenueStatus.PARTIALLY_FILLED,
    some Side.BUY, some 77, some 400, some 50000⟩

/-- A non-`FULL` (LTP) venue-B frame and a book with a consistent BBO cache
(C10 data). -/
def c10Book : Zerodha.Book :=
  { bids := [(10000, ⟨10000, 10, 1, 0⟩)], asks := [(10100, ⟨10100, 4, 1, 0⟩)],
    bbo := Zerodha.updateBBO [(10000, ⟨10000, 10, 1, 0⟩)] [(10100, ⟨10100, 4, 1, 0⟩)],
    last_update_time := 0 }

def c10Ltp : Zerodha.MarketUpdate :=
  { type := Zerodha.MarketUpdateType.LTP, last_price := 10050, last_quantity := 2,
    bids := [], asks := [] }

def c9Config : ZerodhaGW.Config := ⟨7, true, 9/10, 10, 100⟩

def c9NewReq : MEClientRequest := ⟨ClientRequestType.NEW, 7, 42, 3, Side.BUY, 50000, 10⟩

/-! ### Helper lemmas. -/

/-- A frame arriving while the book is uninitialized is buffered: no event,
no state change. -/
theorem applyDepthUpdate_uninit (t : Nat) (st : Binance.ConsumerState)
    (d : Binance.DepthUpdate) (snaps : List Binance.Snapshot)
    (h : st.book.initialized = false) :
    Binance.applyDepthUpdate t st d snaps = (st, []) := by
  unfold Binance.applyDepthUpdate
  rw [if_pos h]

/-- From an uninitialized book, a whole trace emits nothing and changes
nothing. -/
theorem consumeTrace_uninit (t : Nat) :
    ∀ (ins : List Binance.DepthInput) (st : Binance.ConsumerState),
      st.book.initialized = false → Binance.consumeTrace t st ins = (st, [])
  | [], _, _ => rfl
  | i :: ins, st, h => by
    unfold Binance.consumeTrace
    rw [applyDepthUpdate_uninit t st i.upd i.snaps h]
    simp [consumeTrace_uninit t ins st h]

/-- Unfolding equation for a one-step extension of a trace. -/
theorem consumeTrace_cons (t : Nat) (st : Binance.ConsumerState)
    (i : Binance.DepthInput) (ins : List Binance.DepthInput) :
    Binance.consumeTrace t st (i :: ins) =
      ((Binance.consumeTrace t (Binance.applyDepthUpdate t st i.upd i.snaps).1 ins).1,
       (Binance.applyDepthUpdate t st i.upd i.snaps).2 ++
         (Binance.consumeTrace t (Binance.applyDepthUpdate t st i.upd i.snaps).1 ins).2) := rfl

/-- `initializeOrderBook` emits the `CLEAR` first, then only snapshot
`ADD`s. -/
theorem initializeOrderBook_snd (t : Nat) (st : Binance.ConsumerState) (s : Binance.Snapshot) :
    (Binance.initializeOrderBook t st s).2 =
      (⟨Zerodha.EventType.CLEAR, t, 0, Side.INVALID, 0, 0⟩ : Binance.MEMarketUpdate) ::
        ((Binance.snapshotAdds t Side.BUY st.seq s.bids).1 ++
          (Binance.snapshotAdds t Side.SELL
            (Binance.snapshotAdds t Side.BUY st.seq s.bids).2 s.asks).1) := rfl

/-- In a stream headed by a `CLEAR`, every `ADD` is preceded by a `CLEAR`. -/
theorem head_clear_guard (c : Binance.MEMarketUpdate) (l : List Binance.MEMarketUpdate)
    (hc : c.type = Zerodha.EventType.CLEAR) :
    ∀ j, ∀ hj : j < (c :: l).length,
      ((c :: l).get ⟨j, hj⟩).type = Zerodha.EventType.ADD →
      ∃ k, ∃ hk : k < (c :: l).length, k < j ∧
        ((c :: l).get ⟨k, hk⟩).type = Zerodha.EventType.CLEAR := by
  intro j hj hadd
  match j with
  | 0 =>
    rw [show ((c :: l).get ⟨0, hj⟩) = c from rfl, hc] at hadd
    cases hadd
  | j + 1 => exact ⟨0, Nat.succ_pos _, Nat.succ_pos _, hc⟩

/-- One step never decreases `last_update_id` while the book stays
initialized: stale frames change nothing, in-sequence frames move it to `u >
last_update_id`, and a resolved gap installs a snapshot with `lastUpdateId ≥ U
> last_update_id + 1`. -/
theorem applyDepthUpdate_mono (t : Nat) (st : Binance.ConsumerState)
    (d : Binance.DepthUpdate) (snaps : List Binance.Snapshot)
    (hinit : st.book.initialized = true)
    (hres : (Binance.applyDepthUpdate t st d snaps).1.book.initialized = true) :
    st.book.last_update_id ≤ (Binance.applyDepthUpdate t st d snaps).1.book.last_update_id := by
  have h1 : ¬ st.book.initialized = false := by simp [hinit]
  by_cases hu : d.u ≤ st.book.last_update_id
  · unfold Binance.applyDepthUpdate
    rw [if_neg h1, if_pos hu]
  · by_cases hgap : st.book.last_update_id + 1 < d.U
    · cases hfind : snaps.find? (fun s => decide (d.U ≤ s.lastUpdateId)) with
      | none =>
        exfalso
        unfold Binance.applyDepthUpdate at hres
        rw [if_neg h1, if_neg hu, if_pos hgap, hfind] at hres
        exact absurd hres (by simp [Binance.OrderBook.reset])
      | some s =>
        have hge : d.U ≤ s.lastUpdateId := by
          have := List.find?_some hfind
          simpa using this
        unfold Binance.applyDepthUpdate
        rw [if_neg h1, if_neg hu, if_pos hgap, hfind]
        show st.book.last_update_id ≤ s.lastUpdateId
        omega
    · unfold Binance.applyDepthUpdate
      rw [if_neg h1, if_neg hu, if_neg hgap]
      show st.book.last_update_id ≤ ((st.book.applyUpdate d).1).last_update_id
      have h2 : ¬ d.u < st.book.last_update_id := by omega
      unfold Binance.OrderBook.applyUpdate
      rw [if_neg h1, if_neg h2, if_neg hgap]
      show st.book.last_update_id ≤ d.u
      omega

/-- Trace-level monotonicity of `last_update_id` over initialized states. -/
theorem consumeTrace_mono (t : Nat) :
    ∀ (ins : List Binance.DepthInput) (st : Binance.ConsumerState),
      st.book.initialized = true →
      (Binance.consumeTrace t st ins).1.book.initialized = true →
      st.book.last_update_id ≤ (Binance.consumeTrace t st ins).1.book.last_update_id
  | [], _, _, _ => Nat.le_refl _
  | i :: ins, st, hinit, hres => by
    rw [consumeTrace_cons] at hres ⊢
    cases hmid : (Binance.applyDepthUpdate t st i.upd i.snaps).1.book.initialized with
    | true =>
      have step := applyDepthUpdate_mono t st i.upd i.snaps hinit hmid
      have tail := consumeTrace_mono t ins (Binance.applyDepthUpdate t st i.upd i.snaps).1 hmid hres
      exact Nat.le_trans step tail
    | false =>
      rw [consumeTrace_uninit t ins _ hmid] at hres
      exact absurd hres (by simp [hmid])

/-- The guards of `applyDepthUpdate` make the inner `OrderBook::applyUpdate`
succeed: its snapshot-refetch failure branch is dead code on that path. -/
theorem applyUpdate_ok_of_guards (ob : Binance.OrderBook) (d : Binance.DepthUpdate)
    (hinit : ob.initialized = true) (hu : ¬ d.u ≤ ob.last_update_id)
    (hU : ¬ ob.last_update_id + 1 < d.U) : (ob.applyUpdate d).2 = true := by
  have h1 : ¬ ob.initialized = false := by simp [hinit]
  have h2 : ¬ d.u < ob.last_update_id := by omega
  unfold Binance.OrderBook.applyUpdate
  rw [if_neg h1, if_neg h2, if_neg hU]

/-! ### Claim theorems. -/

/-- C1 (counterexample): in scenario S3 the diff book emits, in order,
`MODIFY(bid, 100.00, 7)`, `ADD(bid, 99.00, 3)`, `CANCEL(bid, 99.50)` — not
the claimed order `MODIFY`, `CANCEL`, `ADD`: the disappeared-level `CANCEL`s
are emitted after all level `ADD`/`MODIFY`s, so the claimed sequence is
refuted at this input. -/
theorem zerodha_s3_order_counterexample :
    (s3Events.map (fun e => (e.type, e.side, e.price, e.qty)) =
      [(Zerodha.EventType.MODIFY, Side.BUY, (10000 : Int), (7 : Int)),
       (Zerodha.EventType.ADD, Side.BUY, 9900, 3),
       (Zerodha.EventType.CANCEL, Side.BUY, 9950, 0)]) ∧
    (s3Events.map (fun e => (e.type, e.side, e.price, e.qty)) ≠
      [(Zerodha.EventType.MODIFY, Side.BUY, (10000 : Int), (7 : Int)),
       (Zerodha.EventType.CANCEL, Side.BUY, 9950, 0),
       (Zerodha.EventType.ADD, Side.BUY, 9900, 3)]) := by
  decide

/-- C1 (amended): for the S3 prior snapshot (bids 100.00×10, 99.50×5) and
next FULL snapshot (bids 100.00×7, 99.00×3), the emitted sequence is
`MODIFY(bid, 100.00, 7)`, then `ADD(bid, 99.00, 3)`, then
`CANCEL(bid, 99.50)`, each with the synthesized per-level order id. -/
theorem zerodha_s3_event_sequence :
    s3Events =
      [⟨Zerodha.EventType.MODIFY, 1, Zerodha.generateOrderId 1 10000 Side.BUY,
        Side.BUY, 10000, 7⟩,
       ⟨Zerodha.EventType.ADD, 1, Zerodha.generateOrderId 1 9900 Side.BUY,
        Side.BUY, 9900, 3⟩,
       ⟨Zerodha.EventType.CANCEL, 1, Zerodha.generateOrderId 1 9950 Side.BUY,
        Side.BUY, 9950, 0⟩] := by
  decide

/-- C2: for the venue-A delta book, after any update with a sequence gap
(`U > last_update_id + 1`) on an initialized book, every `ADD` in the
engine-queue event stream from that frame onward is preceded by a `CLEAR`
for the ticker: the re-initialization emits the `CLEAR` first, and if no
acceptable snapshot arrives, nothing is emitted at all. -/
theorem binance_gap_clear_before_add (ticker_id : Nat) (st : Binance.ConsumerState)
    (d : Binance.DepthUpdate) (snaps : List Binance.Snapshot)
    (rest : List Binance.DepthInput)
    (hinit : st.book.initialized = true)
    (hfresh : ¬ d.u ≤ st.book.last_update_id)
    (hgap : st.book.last_update_id + 1 < d.U) :
    ∀ j, ∀ hj : j < (Binance.eventsFrom ticker_id st d snaps rest).length,
      ((Binance.eventsFrom ticker_id st d snaps rest).get ⟨j, hj⟩).type =
        Zerodha.EventType.ADD →
      ∃ k, ∃ hk : k < (Binance.eventsFrom ticker_id st d snaps rest).length,
        k < j ∧ ((Binance.eventsFrom ticker_id st d snaps rest).get ⟨k, hk⟩).type =
          Zerodha.EventType.CLEAR := by
  have h1 : ¬ st.book.initialized = false := by simp [hinit]
  cases hfind : snaps.find? (fun s => decide (d.U ≤ s.lastUpdateId)) with
  | none =>
    have hstep : Binance.applyDepthUpdate ticker_id st d snaps =
        ({ book := Binance.OrderBook.reset, seq := st.seq }, []) := by
      unfold Binance.applyDepthUpdate
      rw [if_neg h1, if_neg hfresh, if_pos hgap, hfind]
    have hE : Binance.eventsFrom ticker_id st d snaps rest = [] := by
      unfold Binance.eventsFrom
      rw [hstep, consumeTrace_uninit ticker_id rest
        { book := Binance.OrderBook.reset, seq := st.seq } rfl]
      rfl
    intro j hj
    rw [hE] at hj
    exact absurd hj (by simp)
  | some s =>
    have hstep : Binance.applyDepthUpdate ticker_id st d snaps =
        Binance.initializeOrderBook ticker_id { st with book := Binance.OrderBook.reset } s := by
      unfold Binance.applyDepthUpdate
      rw [if_neg h1, if_neg hfresh, if_pos hgap, hfind]
    have hE : Binance.eventsFrom ticker_id st d snaps rest =
        (⟨Zerodha.EventType.CLEAR, ticker_id, 0, Side.INVALID, 0, 0⟩ : Binance.MEMarketUpdate) ::
          (((Binance.snapshotAdds ticker_id Side.BUY st.seq s.bids).1 ++
             (Binance.snapshotAdds ticker_id Side.SELL
               (Binance.snapshotAdds ticker_id Side.BUY st.seq s.bids).2 s.asks).1) ++
           (Binance.consumeTrace ticker_id
             (Binance.initializeOrderBook ticker_id
               { st with book := Binance.OrderBook.reset } s).1 rest).2) := by
      unfold Binance.eventsFrom
      rw [hstep, initializeOrderBook_snd]
      simp
    rw [hE]
    exact head_clear_guard _ _ rfl

/-- C2 (witness): scenario S2 — book at `last_update_id = 100`, gapped delta
`(U = 105, u = 108)`, snapshot with `lastUpdateId = 110`. -/
theorem binance_gap_clear_before_add_witness :
    (¬ (108 : Nat) ≤ c2Book.book.last_update_id) ∧
    c2Book.book.last_update_id + 1 < 105 ∧
    ∀ j, ∀ hj : j < (Binance.eventsFrom 0 c2Book c2Gap c2Snaps []).length,
      ((Binance.eventsFrom 0 c2Book c2Gap c2Snaps []).get ⟨j, hj⟩).type =
        Zerodha.EventType.ADD →
      ∃ k, ∃ hk : k < (Binance.eventsFrom 0 c2Book c2Gap c2Snaps []).length,
        k < j ∧ ((Binance.eventsFrom 0 c2Book c2Gap c2Snaps []).get ⟨k, hk⟩).type =
          Zerodha.EventType.CLEAR :=
  ⟨by decide, by decide,
    binance_gap_clear_before_add 0 c2Book c2Gap c2Snaps [] rfl (by decide) (by decide)⟩

/-- C3: for the venue-A delta book, over any trace of depth updates from an
initialized book, `last_update_id` is non-decreasing (as long as the book
remains initialized), and a single update with `u ≤ last_update_id` emits no
event and leaves the whole consumer state — bid map, ask map and
`last_update_id` — unchanged. -/
theorem binance_monotone_and_discard (ticker_id : Nat) (st : Binance.ConsumerState)
    (ins : List Binance.DepthInput) (hinit : st.book.initialized = true) :
    ((Binance.consumeTrace ticker_id st ins).1.book.initialized = true →
      st.book.last_update_id ≤ (Binance.consumeTrace ticker_id st ins).1.book.last_update_id) ∧
    (∀ (d : Binance.DepthUpdate) (snaps : List Binance.Snapshot),
      d.u ≤ st.book.last_update_id →
      Binance.applyDepthUpdate ticker_id st d snaps = (st, [])) := by
  constructor
  · exact consumeTrace_mono ticker_id ins st hinit
  · intro d snaps hstale
    have h1 : ¬ st.book.initialized = false := by simp [hinit]
    unfold Binance.applyDepthUpdate
    rw [if_neg h1, if_pos hstale]

/-- C3 (witness): the book at `last_update_id = 100` over two in-sequence
frames. -/
theorem binance_monotone_and_discard_witness :
    c3Book.book.initialized = true ∧
    ((Binance.consumeTrace 0 c3Book c3Inputs).1.book.initialized = true →
      c3Book.book.last_update_id ≤
        (Binance.consumeTrace 0 c3Book c3Inputs).1.book.last_update_id) ∧
    (∀ (d : Binance.DepthUpdate) (snaps : List Binance.Snapshot),
      d.u ≤ c3Book.book.last_update_id →
      Binance.applyDepthUpdate 0 c3Book d snaps = (c3Book, [])) :=
  ⟨rfl, binance_monotone_and_discard 0 c3Book c3Inputs rfl⟩

/-- C4 (counterexample): on a PARTIALLY_FILLED entry response with
`exec_qty = 4` of a 10-lot bracket, the two exit `NEW`s are enqueued for the
bracket's full quantity 10, not for the filled quantity 4 — refuting the
claim's "for the filled qty". -/
theorem bracket_fill_qty_counterexample :
    ((Taker.onOrderUpdate 7 s4State s4PartialResp).outgoing_requests.map
        (fun r => r.qty) = [10, 10]) ∧
    s4PartialResp.exec_qty = 4 ∧
    ((Taker.onOrderUpdate 7 s4State s4PartialResp).outgoing_requests.map
        (fun r => r.qty) ≠ [4, 4]) := by
  decide

/-- C4 (amended): for a registered unfilled bracket, the first FILLED or
PARTIALLY_FILLED response for the entry id sets `entry_filled`, allocates
`sl_id` and `tp_id` from the order-id counter, and enqueues exactly two
opposite-side `NEW`s at `sl_px` and `tp_px` for the bracket's original
quantity (not the response's filled quantity); a later FILLED response for
one exit leg enqueues a `CANCEL` for the other exit leg. -/
theorem bracket_lifecycle (client_id eid tk nid : Nat) (side : Side)
    (epx spx tpx : Int) (q : Nat) (reqs0 : List MEClientRequest)
    (resp : MEClientResponse)
    (hid : resp.order_id = eid)
    (hkind : resp.type = ClientResponseType.FILLED ∨
             resp.type = ClientResponseType.PARTIALLY_FILLED)
    (h1 : eid ≠ nid) (h2 : eid ≠ nid + 1) (h3 : 0 < nid) :
    let b : Taker.BracketOrder :=
      ⟨eid, 0, 0, tk, side, epx, spx, tpx, q, false, false, false⟩
    let st : Taker.State := ⟨[(eid, b)], nid, reqs0⟩
    let st1 := Taker.onOrderUpdate client_id st resp
    let exit_side := if side = Side.BUY then Side.SELL else Side.BUY
    (assocFind? st1.active_bracket_orders eid =
      some ⟨eid, nid, nid + 1, tk, side, epx, spx, tpx, q, true, false, false⟩) ∧
    st1.next_order_id = nid + 2 ∧
    (st1.outgoing_requests = reqs0 ++
      [⟨ClientRequestType.NEW, client_id, nid, tk, exit_side, spx, q⟩,
       ⟨ClientRequestType.NEW, client_id, nid + 1, tk, exit_side, tpx, q⟩]) ∧
    (∀ r2 : MEClientResponse, r2.type = ClientResponseType.FILLED →
      r2.order_id = nid + 1 →
      (Taker.onOrderUpdate client_id st1 r2).outgoing_requests =
        st1.outgoing_requests ++
          [⟨ClientRequestType.CANCEL, client_id, nid, tk, Side.INVALID, 0, 0⟩]) ∧
    (∀ r2 : MEClientResponse, r2.type = ClientResponseType.FILLED →
      r2.order_id = nid →
      (Taker.onOrderUpdate client_id st1 r2).outgoing_requests =
        st1.outgoing_requests ++
          [⟨ClientRequestType.CANCEL, client_id, nid + 1, tk, Side.INVALID, 0, 0⟩]) := by
  intro b st st1 exit_side
  have hne1 : nid + 1 ≠ nid := by omega
  have hne2 : nid ≠ 0 := by omega
  have hst1 : st1 = Taker.State.mk
      [(eid, ⟨eid, nid, nid + 1, tk, side, epx, spx, tpx, q, true, false, false⟩)]
      (nid + 2)
      (reqs0 ++
        [⟨ClientRequestType.NEW, client_id, nid, tk, exit_side, spx, q⟩,
         ⟨ClientRequestType.NEW, client_id, nid + 1, tk, exit_side, tpx, q⟩]) := by
    show Taker.onOrderUpdate client_id st resp = _
    unfold Taker.onOrderUpdate
    rw [if_pos hkind]
    unfold Taker.handleBracketOrderFill
    simp [st, b, assocFind?, hid, assocSet]
  refine ⟨?_, ?_, ?_, ?_, ?_⟩
  · rw [hst1]; simp [assocFind?]
  · rw [hst1]
  · rw [hst1]
  · intro r2 hty hoid
    rw [hst1]
    unfold Taker.onOrderUpdate
    rw [if_pos (Or.inl hty)]
    unfold Taker.handleBracketOrderFill
    simp [assocFind?, hoid, h2, Taker.scanExitLegs, hne1, hne2]
  · intro r2 hty hoid
    rw [hst1]
    unfold Taker.onOrderUpdate
    rw [if_pos (Or.inl hty)]
    unfold Taker.handleBracketOrderFill
    simp [assocFind?, hoid, h1, Taker.scanExitLegs, hne1, hne2]

/-- C4 (witness): scenario S4 — entry 500 fills, two `NEW SELL`s at 495.00
and 510.00 for qty 10 appear in the request queue. -/
theorem bracket_lifecycle_witness :
    ((500 : Nat) ≠ 1000000) ∧
    (Taker.onOrderUpdate 7
        ⟨[(500, ⟨500, 0, 0, 3, Side.BUY, 50000, 49500, 51000, 10, false, false, false⟩)],
          1000000, []⟩
        ⟨ClientResponseType.FILLED, 7, 3, 500, Side.BUY, 50000, 10, 0⟩).outgoing_requests =
      [⟨ClientRequestType.NEW, 7, 1000000, 3, Side.SELL, 49500, 10⟩,
       ⟨ClientRequestType.NEW, 7, 1000001, 3, Side.SELL, 51000, 10⟩] := by
  refine ⟨by decide, ?_⟩
  have h := (bracket_lifecycle 7 500 3 1000000 Side.BUY 50000 49500 51000 10 []
    ⟨ClientResponseType.FILLED, 7, 3, 500, Side.BUY, 50000, 10, 0⟩ rfl (Or.inl rfl)
    (by decide) (by decide) (by decide)).2.2.1
  simpa using h

/-- C5 (amended): in live mode, a NEW request whose venue response carries a
known error code (a body with `code` and `msg`) makes the gateway emit a
single response of kind CANCEL_REJECTED — not REJECTED: this gateway uses
CANCEL_REJECTED for new-order errors as well — and leaves the order map
unchanged. -/
theorem binance_new_error_cancel_rejected (st : BinanceGW.GwState) (client_id : Nat)
    (req : MEClientRequest) (reply : BinanceGW.JsonReply) (sym : Nat)
    (hty : req.type = ClientRequestType.NEW)
    (htk : assocFind? st.ticker_id_to_symbol req.ticker_id = some sym)
    (hq : req.qty ≠ 0)
    (hnn : reply.isNull = false)
    (hoid : reply.orderId = none)
    (hcode : reply.code.isSome = true)
    (hmsg : reply.msg.isSome = true) :
    (BinanceGW.processClientRequest st client_id req reply).2 =
      [⟨ClientResponseType.CANCEL_REJECTED, req.client_id, req.ticker_id, req.order_id,
        req.side, req.price, 0, Qty_INVALID⟩] ∧
    (BinanceGW.processClientRequest st client_id req reply).1 = st ∧
    ClientResponseType.CANCEL_REJECTED ≠ ClientResponseType.REJECTED := by
  refine ⟨?_, ?_, by decide⟩ <;>
  · rcases req with ⟨ty, cid, oid, tid, sd, px, q⟩
    simp only [MEClientRequest.type] at hty
    subst hty
    simp only [MEClientRequest.ticker_id] at htk
    simp only [MEClientRequest.qty] at hq
    unfold BinanceGW.processClientRequest
    rw [htk]
    simp [hq, hnn, hoid, BinanceGW.createClientResponse, BinanceGW.applyFillFields, hcode, hmsg]

/-- C5 (counterexample): for a NEW order answered by
`{"code": -1013, "msg": …}` the emitted kind is CANCEL_REJECTED, which is not
the claimed REJECTED. -/
theorem binance_new_error_counterexample :
    ((BinanceGW.processClientRequest c5State 7 c5Request c5ErrorReply).2.map
        (fun r => r.type) = [ClientResponseType.CANCEL_REJECTED]) ∧
    ([ClientResponseType.CANCEL_REJECTED] ≠ [ClientResponseType.REJECTED]) := by
  constructor
  · rfl
  · decide

/-- C5 (witness): the amended theorem at the concrete error reply. -/
theorem binance_new_error_cancel_rejected_witness :
    (assocFind? c5State.ticker_id_to_symbol c5Request.ticker_id = some 77) ∧
    ((BinanceGW.processClientRequest c5State 7 c5Request c5ErrorReply).2 =
      [⟨ClientResponseType.CANCEL_REJECTED, c5Request.client_id, c5Request.ticker_id,
        c5Request.order_id, c5Request.side, c5Request.price, 0, Qty_INVALID⟩] ∧
     (BinanceGW.processClientRequest c5State 7 c5Request c5ErrorReply).1 = c5State ∧
     ClientResponseType.CANCEL_REJECTED ≠ ClientResponseType.REJECTED) :=
  ⟨rfl, binance_new_error_cancel_rejected c5State 7 c5Request c5ErrorReply 77
    rfl rfl (by decide) rfl rfl rfl rfl⟩

/-- C6 (amended): for a polled order whose venue status is PARTIALLY_FILLED,
the gateway emits a response of kind FILLED carrying the partially executed
quantity (the source maps venue PARTIALLY_FILLED to FILLED) and keeps the
internal-to-venue order-id mapping in the order map. -/
theorem binance_partial_poll_filled_keeps_mapping (st : BinanceGW.GwState)
    (client_id order_id boid sym tk eq : Nat) (sd : Side) (px : Int)
    (reply : BinanceGW.JsonReply)
    (hst : reply.status = some BinanceGW.VenueStatus.PARTIALLY_FILLED)
    (hoid : reply.orderId = some boid)
    (hside : reply.side = some sd)
    (hsym : reply.symbol = some sym)
    (hexec : reply.executedQty = some eq)
    (hpx : reply.price = some px)
    (hrev : BinanceGW.revFind? st.order_id_to_binance_id boid = some order_id)
    (htk : assocFind? st.symbol_to_ticker_id sym = some tk) :
    ∀ polled_id : Nat,
      (BinanceGW.handleOrderQueryResponse st client_id reply polled_id).1 = st ∧
      (BinanceGW.handleOrderQueryResponse st client_id reply polled_id).2 =
        some ⟨ClientResponseType.FILLED, client_id, tk, order_id, sd, px, eq, Qty_INVALID⟩ := by
  intro polled_id
  constructor <;>
    simp [BinanceGW.handleOrderQueryResponse, BinanceGW.createClientResponse,
      BinanceGW.applyFillFields, hst, hoid, hside, hsym, htk, hrev, hexec, hpx]

/-- C6 (counterexample): polling venue order 9001 in state PARTIALLY_FILLED
emits kind FILLED (not PARTIALLY_FILLED) while the mapping survives. -/
theorem binance_partial_poll_counterexample :
    ((BinanceGW.handleOrderQueryResponse c6State 7 c6Reply 500).2.map
        (fun r => r.type) = some ClientResponseType.FILLED) ∧
    ((BinanceGW.handleOrderQueryResponse c6State 7 c6Reply 500).1.order_id_to_binance_id =
      [(500, 9001)]) ∧
    (ClientResponseType.FILLED ≠ ClientResponseType.PARTIALLY_FILLED) := by
  refine ⟨rfl, rfl, by decide⟩

/-- C6 (witness): the amended theorem at the concrete polled reply. -/
theorem binance_partial_poll_filled_keeps_mapping_witness :
    (c6Reply.status = some BinanceGW.VenueStatus.PARTIALLY_FILLED) ∧
    ((BinanceGW.handleOrderQueryResponse c6State 7 c6Reply 500).1 = c6State ∧
     (BinanceGW.handleOrderQueryResponse c6State 7 c6Reply 500).2 =
       some ⟨ClientResponseType.FILLED, 7, 3, 500, Side.BUY, 50000, 400, Qty_INVALID⟩) :=
  ⟨rfl, binance_partial_poll_filled_keeps_mapping c6State 7 500 9001 77 3 400 Side.BUY
    50000 c6Reply rfl rfl rfl rfl rfl rfl rfl rfl 500⟩

/-- C7: the paper-trading simulator contradicts the configured model — for a
NEW request it emits ACCEPTED (exec 0, leaves qty) and then a FILLED at the
requested price regardless of `fill_probability` (here 0, so the claim says
the order should stay open), and the simulated latency is the hard-coded
`50 + rand() % 150` ms, which at draw 51 gives 101 ms, outside the
configured `[10, 100]` ms range; the configured knobs are never read. -/
theorem zerodha_paper_sim_ignores_knobs :
    (∀ p lo hi : ℚ,
      ZerodhaGW.processOrderRequest ⟨7, true, p, lo, hi⟩
          ⟨ClientRequestType.NEW, 7, 42, 3, Side.BUY, 50000, 10⟩ =
        ([⟨ClientResponseType.ACCEPTED, 7, 3, 42, Side.BUY, 50000, 0, 10⟩],
         [⟨ClientResponseType.FILLED, 7, 3, 42, Side.BUY, 50000, 10, 0⟩])) ∧
    ZerodhaGW.paperFillDelayMs 51 = 101 ∧
    ¬ ((10 : ℚ) ≤ 101 ∧ (101 : ℚ) ≤ 100) := by
  refine ⟨fun p lo hi => rfl, rfl, ?_⟩
  intro h
  have := h.2
  norm_num at this

/-- C8: with a cached lot size `L > 0`, `adjustQuantityToLotSize` returns
`max L (q / L * L)`: a positive multiple of `L` that, whenever `L ≤ q`, is
the largest multiple of `L` not exceeding `q`, and is one full lot when
`q < L`. -/
theorem lot_size_adjustment (lots : List (Nat × Nat)) (tk q L : Nat)
    (hL : assocFind? lots tk = some L) (hpos : 0 < L) :
    Taker.adjustQuantityToLotSize lots tk q = max L (q / L * L) ∧
    Taker.adjustQuantityToLotSize lots tk q % L = 0 ∧
    0 < Taker.adjustQuantityToLotSize lots tk q ∧
    (L ≤ q →
      Taker.adjustQuantityToLotSize lots tk q = q / L * L ∧
      Taker.adjustQuantityToLotSize lots tk q ≤ q ∧
      ∀ m, m % L = 0 → m ≤ q → m ≤ Taker.adjustQuantityToLotSize lots tk q) ∧
    (q < L → Taker.adjustQuantityToLotSize lots tk q = L) := by
  have he : Taker.adjustQuantityToLotSize lots tk q = max L (q / L * L) := by
    unfold Taker.adjustQuantityToLotSize
    rw [hL]
  refine ⟨he, ?_, ?_, ?_, ?_⟩
  · rw [he]
    rcases Nat.le_total L (q / L * L) with h | h
    · rw [Nat.max_eq_right h]
      exact Nat.mul_mod_left _ _
    · rw [Nat.max_eq_left h]
      exact Nat.mod_self L
  · rw [he]
    exact Nat.lt_of_lt_of_le hpos (Nat.le_max_left _ _)
  · intro hLq
    have hone : 1 ≤ q / L := (Nat.one_le_div_iff hpos).mpr hLq
    have hge : L ≤ q / L * L := by
      calc L = 1 * L := (Nat.one_mul L).symm
        _ ≤ q / L * L := Nat.mul_le_mul_right L hone
    have hmax : max L (q / L * L) = q / L * L := Nat.max_eq_right hge
    refine ⟨by rw [he, hmax], ?_, ?_⟩
    · rw [he, hmax]
      exact Nat.div_mul_le_self q L
    · intro m hm hmq
      rw [he, hmax]
      have hmeq : m / L * L = m := Nat.div_mul_cancel (Nat.dvd_of_mod_eq_zero hm)
      calc m = m / L * L := hmeq.symm
        _ ≤ q / L * L := Nat.mul_le_mul_right L (Nat.div_le_div_right hmq)
  · intro hqL
    have : q / L = 0 := Nat.div_eq_of_lt hqL
    rw [he, this]
    simp

/-- C8 (witness): lot size 50, requested 175 → adjusted 150. -/
theorem lot_size_adjustment_witness :
    (assocFind? [(1001, 50)] 1001 = some 50) ∧
    Taker.adjustQuantityToLotSize [(1001, 50)] 1001 175 = 150 := by
  refine ⟨by decide, ?_⟩
  rw [(lot_size_adjustment [(1001, 50)] 1001 175 50 (by decide) (by decide)).1]
  decide

/-- C9: the Zerodha order gateway adapter acknowledges unconditionally —
a matching NEW request yields exactly one ACCEPTED (exec 0, leaves qty)
whether or not paper mode is on, a matching CANCEL yields a CANCELED with
`leaves_qty = 0` without consulting any order registry, and a request with a
foreign `client_id` yields no response at all. -/
theorem zerodha_gateway_unconditional_ack (cfg : ZerodhaGW.Config)
    (req : MEClientRequest) :
    (req.client_id = cfg.client_id → req.type = ClientRequestType.NEW →
      (ZerodhaGW.processOrderRequest cfg req).1 =
        [⟨ClientResponseType.ACCEPTED, req.client_id, req.ticker_id, req.order_id,
          req.side, req.price, 0, req.qty⟩] ∧
      (((ZerodhaGW.processOrderRequest cfg req).1 ++
          (ZerodhaGW.processOrderRequest cfg req).2).countP
        (fun r => decide (r.type = ClientResponseType.ACCEPTED))) = 1) ∧
    (req.client_id = cfg.client_id → req.type = ClientRequestType.CANCEL →
      ZerodhaGW.processOrderRequest cfg req =
        ([⟨ClientResponseType.CANCELED, req.client_id, req.ticker_id, req.order_id,
           req.side, req.price, 0, 0⟩], [])) ∧
    (req.client_id ≠ cfg.client_id →
      ZerodhaGW.processOrderRequest cfg req = ([], [])) := by
  refine ⟨?_, ?_, ?_⟩
  · intro hcid hty
    have h : ¬ req.client_id ≠ cfg.client_id := by simp [hcid]
    unfold ZerodhaGW.processOrderRequest
    rw [if_neg h, hty]
    unfold ZerodhaGW.sendNewOrder
    cases hpm : cfg.paper_trading_mode <;> simp [hpm]
  · intro hcid hty
    have h : ¬ req.client_id ≠ cfg.client_id := by simp [hcid]
    unfold ZerodhaGW.processOrderRequest
    rw [if_neg h, hty]
    rfl
  · intro hcid
    unfold ZerodhaGW.processOrderRequest
    rw [if_pos hcid]

/-- C9 (witness): a matching NEW in paper mode — one ACCEPTED immediately,
and one ACCEPTED in total. -/
theorem zerodha_gateway_unconditional_ack_witness :
    (c9NewReq.client_id = c9Config.client_id) ∧
    ((ZerodhaGW.processOrderRequest c9Config c9NewReq).1 =
      [⟨ClientResponseType.ACCEPTED, c9NewReq.client_id, c9NewReq.ticker_id,
        c9NewReq.order_id, c9NewReq.side, c9NewReq.price, 0, c9NewReq.qty⟩] ∧
     (((ZerodhaGW.processOrderRequest c9Config c9NewReq).1 ++
         (ZerodhaGW.processOrderRequest c9Config c9NewReq).2).countP
       (fun r => decide (r.type = ClientResponseType.ACCEPTED))) = 1) :=
  ⟨rfl, (zerodha_gateway_unconditional_ack c9Config c9NewReq).1 rfl rfl⟩

/-- C10: a non-FULL venue-B market update (LTP, QUOTE or INDEX) produces an
empty event list and leaves the bid and ask maps unchanged; only the
last-update timestamp and the recomputed BBO cache are written, and when the
cache was consistent with the maps the BBO value is unchanged. -/
theorem zerodha_non_full_frame (ticker_id now : Nat) (b : Zerodha.Book)
    (u : Zerodha.MarketUpdate) (h : u.type ≠ Zerodha.MarketUpdateType.FULL) :
    Zerodha.processMarketUpdate ticker_id now b u =
      ({ bids := b.bids, asks := b.asks, bbo := Zerodha.updateBBO b.bids b.asks,
         last_update_time := now }, []) ∧
    (b.bbo = Zerodha.updateBBO b.bids b.asks →
      (Zerodha.processMarketUpdate ticker_id now b u).1.bbo = b.bbo) := by
  have hgen : ∀ prevB prevA,
      Zerodha.generateMarketEvents ticker_id now b.bids b.asks prevB prevA u =
        (b.bids, b.asks, []) := by
    intro prevB prevA
    unfold Zerodha.generateMarketEvents
    rw [if_pos h]
  constructor
  · simp only [Zerodha.processMarketUpdate]
    rw [hgen]
  · intro hc
    simp only [Zerodha.processMarketUpdate]
    rw [hgen, hc]

/-- C10 (witness): an LTP frame on a two-level book with a consistent BBO
cache. -/
theorem zerodha_non_full_frame_witness :
    (c10Ltp.type ≠ Zerodha.MarketUpdateType.FULL) ∧
    (Zerodha.processMarketUpdate 1 7 c10Book c10Ltp =
      ({ bids := c10Book.bids, asks := c10Book.asks,
         bbo := Zerodha.updateBBO c10Book.bids c10Book.asks,
         last_update_time := 7 }, []) ∧
     (c10Book.bbo = Zerodha.updateBBO c10Book.bids c10Book.asks →
       (Zerodha.processMarketUpdate 1 7 c10Book c10Ltp).1.bbo = c10Book.bbo)) :=
  ⟨by decide, zerodha_non_full_frame 1 7 c10Book c10Ltp (by decide)⟩
